import Mathlib

/-!
Shallow embedding of the connection-configuration and migration-orchestration
core of the parsel-email/lib-go repository, together with theorems settling
the frozen claims about it.

Conventions of the embedding:
* Go strings are Lean `String`; all literals involved are ASCII, so byte-level
  operations (strings.HasPrefix, strings.Join) coincide with the `Char`-list
  operations used here.
* A Go `map[string]string` is embedded as a `List (String × String)` giving
  the key/value pairs in the order in which a `range` loop happens to
  enumerate them.  Go does not specify (and in practice randomises) that
  order, so a property that must hold for every enumeration is quantified
  over all lists, and two enumerations of the same map are related by
  `List.Perm`.
* `time.Duration` is an `Int` counting nanoseconds (Go int64; no overflow
  occurs at the constants involved).
* Effectful driver and filesystem calls are resolved by explicit environment
  records (`LibsqlEnv`, `MattnEnv`, `FsEnv`, `MigrateEnv`) that say which of
  the calls fail; the functions return outcome records describing the result
  value, the side effects performed, and the final state of the handle.
-/

/-- Go strings.Join: concatenates the elements of the list with the separator
between consecutive elements, empty string for the empty list. -/
def goJoin (sep : String) : List String → String
  | [] => ""
  | [x] => x
  | x :: y :: ys => x ++ sep ++ goJoin sep (y :: ys)

/-- Go strings.HasPrefix on ASCII strings, via the character lists. -/
def hasPfx (s pre : String) : Bool :=
  List.isPrefixOf pre.data s.data

/-- The query parameters built by the loop in formatDSN
(src/database/libsql/options.go): one "key=value" string per pragma pair, in
enumeration order. -/
def pragmaParams (pragmas : List (String × String)) : List String :=
  pragmas.map (fun kv => kv.1 ++ "=" ++ kv.2)

/-- formatDSN (src/database/libsql/options.go, lines 23-41): starts from the
path and, when at least one pragma parameter exists, appends a single "?"
followed by the parameters joined with "&".  The path is never inspected for
an existing "?". -/
def formatDSN (path : String) (pragmas : List (String × String)) : String :=
  let params := pragmaParams pragmas
  if params.length > 0 then path ++ ("?" ++ goJoin "&" params) else path

/-- DefaultPragmas (src/database/libsql/options.go, lines 11-20), the six
default pragma pairs of the map literal. -/
def DefaultPragmas : List (String × String) :=
  [("journal_mode", "WAL"),
   ("synchronous", "NORMAL"),
   ("foreign_keys", "ON"),
   ("cache_size", "-2000"),
   ("temp_store", "MEMORY"),
   ("mmap_size", "268435456")]

/-- Go time.Minute in nanoseconds. -/
def timeMinute : Int := 60000000000

/-- Go time.Hour in nanoseconds. -/
def timeHour : Int := 3600000000000

/-- Config (src/database/database.go, lines 19-27). -/
structure Config where
  path : String
  authToken : String
  maxOpenConns : Int
  maxIdleConns : Int
  connMaxLifetime : Int
  connMaxIdleTime : Int
  pragmas : List (String × String)
deriving DecidableEq

/-- DefaultConfig (src/database/database.go, lines 30-40). -/
def DefaultConfig : Config :=
  { path := ":memory:"
    authToken := ""
    maxOpenConns := 5
    maxIdleConns := 5
    connMaxLifetime := timeHour
    connMaxIdleTime := 30 * timeMinute
    pragmas := DefaultPragmas }

/-- A Go context value: the background context or a child carrying a timeout
(deadline) over its parent. -/
inductive Context where
  | background : Context
  | withTimeout : Context → Int → Context
deriving DecidableEq

/-- The cancel function returned by WithContext: either the no-op literal
func() from the passthrough branch, or the real cancel returned by
context.WithTimeout. -/
inductive CancelFunc where
  | noop : CancelFunc
  | cancelCtx : CancelFunc
deriving DecidableEq

/-- WithContext (src/database/database.go, lines 97-102): a positive timeout
yields a deadline-bound child context with its cancel; otherwise the parent
context is returned unchanged with a no-op cancel. -/
def WithContext (ctx : Context) (timeout : Int) : Context × CancelFunc :=
  if timeout > 0 then (Context.withTimeout ctx timeout, CancelFunc.cancelCtx)
  else (ctx, CancelFunc.noop)

/-- Result value of an Open call: the handle (abstracted to a unit) or the
error message. -/
inductive OpenResult where
  | ok : OpenResult
  | err : String → OpenResult
deriving DecidableEq

/-- An option passed to libsql.NewConnector. -/
inductive LibsqlOption where
  | withAuthToken : String → LibsqlOption
deriving DecidableEq

/-- The connector request issued by Open: the URL handed to
libsql.NewConnector together with the option list. -/
structure ConnectorReq where
  url : String
  opts : List LibsqlOption
deriving DecidableEq

/-- Environment resolving the effectful calls inside the libSQL Open:
whether libsql.NewConnector fails and whether db.Ping fails. -/
structure LibsqlEnv where
  connectorErr : Option String
  pingErr : Option String
deriving DecidableEq

/-- Outcome of an Open call: result, the connector request that was issued,
whether a database handle was ever created, whether it was closed again
before Open returned, and whether the four pool parameters were applied. -/
structure OpenOutcome where
  result : OpenResult
  connectorReq : ConnectorReq
  handleOpened : Bool
  handleClosed : Bool
  poolConfigured : Bool
deriving DecidableEq

/-- Common tail of Open (src/database/database.go, lines 77-93): sql.OpenDB
has produced a handle, the pool parameters are applied, and the connection is
pinged; a ping failure closes the handle and returns the wrapped error. -/
def openTail (req : ConnectorReq) (env : LibsqlEnv) : OpenOutcome :=
  match env.pingErr with
  | some e =>
      { result := OpenResult.err ("pinging database: " ++ e)
        connectorReq := req
        handleOpened := true
        handleClosed := true
        poolConfigured := true }
  | none =>
      { result := OpenResult.ok
        connectorReq := req
        handleOpened := true
        handleClosed := false
        poolConfigured := true }

/-- Open (src/database/database.go, lines 43-94): dispatches on whether the
path starts with the remote scheme.  Remote: the connector is built from the
path itself, with the auth token attached as an option when non-empty.
Local: the connector is built from the path formatted with the pragmas, with
no options.  A connector failure returns the wrapped error with no handle
created; otherwise the common tail runs. -/
def databaseOpen (cfg : Config) (env : LibsqlEnv) : OpenOutcome :=
  if hasPfx cfg.path "libsql://" then
    let connOpts :=
      if cfg.authToken ≠ "" then [LibsqlOption.withAuthToken cfg.authToken] else []
    let req : ConnectorReq := { url := cfg.path, opts := connOpts }
    match env.connectorErr with
    | some e =>
        { result := OpenResult.err ("creating libSQL connector for remote database: " ++ e)
          connectorReq := req
          handleOpened := false
          handleClosed := false
          poolConfigured := false }
    | none => openTail req env
  else
    let dsn := formatDSN cfg.path cfg.pragmas
    let req : ConnectorReq := { url := dsn, opts := [] }
    match env.connectorErr with
    | some e =>
        { result := OpenResult.err ("creating libSQL connector for local database: " ++ e)
          connectorReq := req
          handleOpened := false
          handleClosed := false
          poolConfigured := false }
    | none => openTail req env

/-- The DSN computation inside the sqlite3 variant Open
(src/database/sqlite3/database.go, lines 40-50): format the path with the
pragmas, then add the "file:" scheme marker unless the DSN is the bare
in-memory sentinel or already scheme-qualified. -/
def sqlite3DSN (path : String) (pragmas : List (String × String)) : String :=
  let dsn := formatDSN path pragmas
  if dsn ≠ ":memory:" ∧ hasPfx dsn "file:" = false then "file:" ++ dsn else dsn

/-- Config of the src/unnamed/part_002 variant of package database (no auth
token field). -/
structure MattnConfig where
  path : String
  maxOpenConns : Int
  maxIdleConns : Int
  connMaxLifetime : Int
  connMaxIdleTime : Int
  pragmas : List (String × String)
deriving DecidableEq

/-- DefaultConfig of the src/unnamed/part_002 variant. -/
def mattnDefaultConfig : MattnConfig :=
  { path := ":memory:"
    maxOpenConns := 5
    maxIdleConns := 5
    connMaxLifetime := timeHour
    connMaxIdleTime := 30 * timeMinute
    pragmas := DefaultPragmas }

/-- Environment for the src/unnamed/part_002 Open: whether sql.Open fails and
whether db.Ping fails. -/
structure MattnEnv where
  openErr : Option String
  pingErr : Option String
deriving DecidableEq

/-- Outcome of the src/unnamed/part_002 Open: result, the DSN handed to
sql.Open, and the handle lifecycle flags. -/
structure MattnOutcome where
  result : OpenResult
  dsn : String
  handleOpened : Bool
  handleClosed : Bool
  poolConfigured : Bool
deriving DecidableEq

/-- Open of the src/unnamed/part_002 variant (lines 40-63): formats the DSN,
opens the handle, applies the pool parameters and pings.  On a ping failure
this variant returns the wrapped error WITHOUT calling db.Close: the handle
stays open (the two sibling variants close it here). -/
def mattnOpen (cfg : MattnConfig) (env : MattnEnv) : MattnOutcome :=
  let dsn := formatDSN cfg.path cfg.pragmas
  match env.openErr with
  | some e =>
      { result := OpenResult.err ("opening database: " ++ e)
        dsn := dsn
        handleOpened := false
        handleClosed := false
        poolConfigured := false }
  | none =>
      match env.pingErr with
      | some e =>
          { result := OpenResult.err ("pinging database: " ++ e)
            dsn := dsn
            handleOpened := true
            handleClosed := false
            poolConfigured := true }
      | none =>
          { result := OpenResult.ok
            dsn := dsn
            handleOpened := true
            handleClosed := false
            poolConfigured := true }

/-- The fixed migrations directory constant of cmd/migrate
(src/unnamed/part_001). -/
def migrationsDir : String := "./db/migrations"

/-- filepath.Join of migrationsDir with a plain file name.  Go filepath.Join
cleans its result, which drops the leading "./" of the directory constant. -/
def joinMigrations (file : String) : String := "db/migrations/" ++ file

/-- One observable side effect of the migration command-line tool: a
directory creation, a file write, printed output, a fatal log (process
exit), or an access to the target database (which is how applying
migrations and updating the stored version state would show up). -/
inductive Effect where
  | mkdirAll : String → Effect
  | writeFile : String → String → Effect
  | printLine : String → Effect
  | fatal : String → Effect
  | dbAccess : String → Effect
deriving DecidableEq

/-- Environment resolving the filesystem calls of createMigration: whether
os.MkdirAll and the two os.WriteFile calls fail. -/
structure FsEnv where
  mkdirErr : Option String
  writeUpErr : Option String
  writeDownErr : Option String
deriving DecidableEq

/-- createMigration (src/unnamed/part_001, lines 54-75): builds the two file
names from the unix timestamp and the migration name, ensures the migrations
directory exists, writes the up file then the down file with stub bodies,
and prints the created paths.  Each failing step logs fatally and stops.
The returned list is the ordered trace of effects performed. -/
def createMigration (name : String) (timestamp : Nat) (env : FsEnv) : List Effect :=
  let upMigration := joinMigrations (toString timestamp ++ "_" ++ name ++ ".up.sql")
  let downMigration := joinMigrations (toString timestamp ++ "_" ++ name ++ ".down.sql")
  Effect.mkdirAll migrationsDir ::
    match env.mkdirErr with
    | some e => [Effect.fatal ("Failed to create migrations directory: " ++ e)]
    | none =>
        Effect.writeFile upMigration "-- Migration Up\n" ::
          match env.writeUpErr with
          | some e => [Effect.fatal ("Failed to create up migration file: " ++ e)]
          | none =>
              Effect.writeFile downMigration "-- Migration Down\n" ::
                match env.writeDownErr with
                | some e => [Effect.fatal ("Failed to create down migration file: " ++ e)]
                | none =>
                    [Effect.printLine
                      ("Created migration files:\n" ++ upMigration ++ "\n" ++ downMigration)]

/-- The file writes contained in an effect trace. -/
def writesOf (trace : List Effect) : List (String × String) :=
  trace.filterMap fun e =>
    match e with
    | Effect.writeFile p c => some (p, c)
    | _ => none

/-- The database accesses contained in an effect trace. -/
def dbAccessesOf (trace : List Effect) : List String :=
  trace.filterMap fun e =>
    match e with
    | Effect.dbAccess q => some q
    | _ => none

/-- Result of the m.Version() call of the golang-migrate library: a recorded
version with its dirty flag, the ErrNilVersion condition when no migration
was ever applied, or another error. -/
inductive VersionOutcome where
  | ok : Nat → Bool → VersionOutcome
  | nilVersion : VersionOutcome
  | err : String → VersionOutcome
deriving DecidableEq

/-- Environment resolving the effectful calls of getMigrationVersion:
whether sqlite.WithInstance and migrate.NewWithDatabaseInstance fail, and
what m.Version() reports. -/
structure MigrateEnv where
  withInstanceErr : Option String
  newInstanceErr : Option String
  version : VersionOutcome
deriving DecidableEq

/-- getMigrationVersion (src/unnamed/part_001, lines 116-145): connects,
builds the migrate instance, and queries the version.  ErrNilVersion prints
the no-migrations message and returns normally; any other error is fatal; a
recorded version prints the pointer and dirty flag.  Returns the printed
lines and the fatal message, if any (a fatal message exits the process with
a non-zero status). -/
def getMigrationVersion (env : MigrateEnv) : List String × Option String :=
  match env.withInstanceErr with
  | some e => ([], some ("Failed to connect to database: " ++ e))
  | none =>
      match env.newInstanceErr with
      | some e => ([], some ("Failed to create migration instance: " ++ e))
      | none =>
          match env.version with
          | VersionOutcome.nilVersion => (["No migrations applied yet"], none)
          | VersionOutcome.err e => ([], some ("Failed to get migration version: " ++ e))
          | VersionOutcome.ok v dirty =>
              (["Current migration version: " ++ toString v ++
                  " (dirty: " ++ (if dirty then "true" else "false") ++ ")"], none)

/-- Length of a Go strings.Join result: the summed lengths of the pieces
plus one separator between each consecutive pair. -/
theorem goJoin_length (sep : String) (l : List String) :
    (goJoin sep l).length = (l.map String.length).sum + sep.length * (l.length - 1) := by
  induction l with
  | nil => simp [goJoin]
  | cons x xs ih =>
      cases xs with
      | nil => simp [goJoin]
      | cons y ys =>
          simp [goJoin, String.length_append, ih, Nat.mul_succ] at *
          omega

/-- Unfolding of formatDSN at a non-empty pragma enumeration. -/
theorem formatDSN_ne_nil (path : String) (l : List (String × String)) (h : l ≠ []) :
    formatDSN path l = path ++ ("?" ++ goJoin "&" (pragmaParams l)) := by
  have hl : (pragmaParams l).length > 0 := by
    simpa [pragmaParams] using List.length_pos.mpr h
  simp [formatDSN, hl]

/-- With at least one pragma, the DSN built from the in-memory sentinel is
strictly longer than the sentinel, hence different from it. -/
theorem formatDSN_memory_ne (l : List (String × String)) (h : l ≠ []) :
    formatDSN ":memory:" l ≠ ":memory:" := by
  rw [formatDSN_ne_nil _ _ h]
  intro he
  have hlen := congrArg String.length he
  simp only [String.length_append,
    show (":memory:" : String).length = 8 from rfl,
    show ("?" : String).length = 1 from rfl] at hlen
  omega

/-- C1 counterexample: with a path that already contains a question mark and
one pragma, formatDSN appends a second question mark instead of joining with
an ampersand, so the result has duplicate separators. -/
theorem formatDSN_no_amp_join :
    formatDSN "a?b=c" [("k", "1")] = "a?b=c?k=1" ∧
    formatDSN "a?b=c" [("k", "1")] ≠ "a?b=c&k=1" := by
  exact ⟨by decide, by decide⟩

/-- C1 (amended): for every path and non-empty pragma enumeration, formatDSN
appends the pragmas with exactly one leading question mark regardless of the
path contents; it never switches to an ampersand, so when the path already
contains a question mark the result contains at least two of them. -/
theorem formatDSN_always_question_sep (path : String) (l : List (String × String))
    (h : l ≠ []) :
    formatDSN path l = path ++ ("?" ++ goJoin "&" (pragmaParams l)) ∧
    ('?' ∈ path.data → 2 ≤ (formatDSN path l).data.count '?') := by
  refine ⟨formatDSN_ne_nil path l h, fun hq => ?_⟩
  rw [formatDSN_ne_nil path l h]
  have h1 : 1 ≤ path.data.count '?' := List.count_pos_iff.mpr hq
  simp only [String.data_append, List.count_append,
    show ("?" : String).data = ['?'] from rfl,
    show (['?'] : List Char).count '?' = 1 from rfl]
  omega

/-- Witness for C1 at the concrete path "a?b=c" and pragma list with the
single pair k=1. -/
theorem formatDSN_always_question_sep_witness :
    ([("k", "1")] : List (String × String)) ≠ [] ∧
    (formatDSN "a?b=c" [("k", "1")] =
        "a?b=c" ++ ("?" ++ goJoin "&" (pragmaParams [("k", "1")])) ∧
      ('?' ∈ ("a?b=c" : String).data →
        2 ≤ (formatDSN "a?b=c" [("k", "1")]).data.count '?')) :=
  ⟨by decide, formatDSN_always_question_sep "a?b=c" [("k", "1")] (by decide)⟩

/-- C2 counterexample: two enumeration orders of the same two-pragma mapping
give different strings, so the serialization is not reproducible across
invocations (Go map iteration order is unspecified). -/
theorem formatDSN_order_dependent :
    List.Perm ([("a", "1"), ("b", "2")] : List (String × String))
      [("b", "2"), ("a", "1")] ∧
    formatDSN "p" [("a", "1"), ("b", "2")] ≠ formatDSN "p" [("b", "2"), ("a", "1")] := by
  decide

/-- C2 (amended): formatDSN is a pure function of the path and the
enumeration order of the pragma mapping, and the mapping alone determines
the serialized parameter multiset and the output length; but the order of
the key=value pairs inside the string follows the enumeration, which the
code does not canonicalize, so permuted enumerations of the same mapping can
give different strings. -/
theorem formatDSN_perm_invariant (path : String) (l₁ l₂ : List (String × String))
    (h : List.Perm l₁ l₂) :
    List.Perm (pragmaParams l₁) (pragmaParams l₂) ∧
    (formatDSN path l₁).length = (formatDSN path l₂).length := by
  have hp : List.Perm (pragmaParams l₁) (pragmaParams l₂) := h.map _
  refine ⟨hp, ?_⟩
  by_cases h0 : l₁ = []
  · subst h0
    have h2 : l₂ = [] := h.symm.eq_nil
    subst h2
    rfl
  · have h2 : l₂ ≠ [] := fun he => h0 (by rw [he] at h; exact h.eq_nil)
    rw [formatDSN_ne_nil _ _ h0, formatDSN_ne_nil _ _ h2]
    simp only [String.length_append]
    rw [goJoin_length, goJoin_length]
    rw [List.Perm.sum_eq (hp.map String.length), hp.length_eq]

/-- Witness for C2 at the two-element pragma mapping a=1, b=2 and its swap. -/
theorem formatDSN_perm_invariant_witness :
    List.Perm ([("a", "1"), ("b", "2")] : List (String × String))
      [("b", "2"), ("a", "1")] ∧
    (List.Perm (pragmaParams [("a", "1"), ("b", "2")])
        (pragmaParams [("b", "2"), ("a", "1")]) ∧
      (formatDSN "p" [("a", "1"), ("b", "2")]).length =
        (formatDSN "p" [("b", "2"), ("a", "1")]).length) :=
  ⟨by decide, formatDSN_perm_invariant "p" _ _ (by decide)⟩

/-- C3: in the src/unnamed/part_002 variant of package database, a failing
ping makes Open return the wrapped connectivity error while the handle it
created is still open (no db.Close call on that branch), contradicting the
guaranteed-release contract; the libSQL variant
(src/database/database.go) does close the handle on the same failure. -/
theorem mattnOpen_ping_leaves_handle_open :
    (mattnOpen mattnDefaultConfig { openErr := none, pingErr := some "connection refused" }).result
        = OpenResult.err "pinging database: connection refused" ∧
    (mattnOpen mattnDefaultConfig { openErr := none, pingErr := some "connection refused" }).handleOpened
        = true ∧
    (mattnOpen mattnDefaultConfig { openErr := none, pingErr := some "connection refused" }).handleClosed
        = false ∧
    (databaseOpen DefaultConfig { connectorErr := none, pingErr := some "connection refused" }).handleClosed
        = true := by
  refine ⟨rfl, rfl, rfl, rfl⟩

/-- C4: DefaultConfig returns the in-memory sentinel, an empty auth token,
pool sizes 5 and 5, a one-hour max lifetime and a thirty-minute max idle
time (in nanoseconds), and a pragma set consisting of exactly the six
default pragmas. -/
theorem defaultConfig_spec :
    DefaultConfig.path = ":memory:" ∧
    DefaultConfig.authToken = "" ∧
    DefaultConfig.maxOpenConns = 5 ∧
    DefaultConfig.maxIdleConns = 5 ∧
    DefaultConfig.connMaxLifetime = 3600000000000 ∧
    DefaultConfig.connMaxIdleTime = 1800000000000 ∧
    (DefaultConfig.pragmas.map Prod.fst).Nodup ∧
    DefaultConfig.pragmas.length = 6 ∧
    DefaultConfig.pragmas.lookup "journal_mode" = some "WAL" ∧
    DefaultConfig.pragmas.lookup "synchronous" = some "NORMAL" ∧
    DefaultConfig.pragmas.lookup "foreign_keys" = some "ON" ∧
    DefaultConfig.pragmas.lookup "cache_size" = some "-2000" ∧
    DefaultConfig.pragmas.lookup "temp_store" = some "MEMORY" ∧
    DefaultConfig.pragmas.lookup "mmap_size" = some "268435456" := by
  decide

/-- C5: formatting any path with an empty pragma mapping is the identity; in
particular the in-memory sentinel passes through unchanged. -/
theorem formatDSN_empty_identity (path : String) :
    formatDSN path [] = path ∧ formatDSN ":memory:" [] = ":memory:" :=
  ⟨rfl, rfl⟩

/-- C6: a non-positive timeout makes WithContext return the parent context
itself with the no-op cancel; a positive timeout returns a deadline-bound
child context with the real cancel. -/
theorem withContext_spec (ctx : Context) (t : Int) :
    (t ≤ 0 → WithContext ctx t = (ctx, CancelFunc.noop)) ∧
    (0 < t → WithContext ctx t = (Context.withTimeout ctx t, CancelFunc.cancelCtx)) := by
  constructor
  · intro h
    have hn : ¬ t > 0 := by omega
    simp [WithContext, hn]
  · intro h
    simp [WithContext, h]

/-- Witness for C6 at the background context with timeouts -3 and 5. -/
theorem withContext_spec_witness :
    ((-3 : Int) ≤ 0 ∧
      WithContext Context.background (-3) = (Context.background, CancelFunc.noop)) ∧
    ((0 : Int) < 5 ∧
      WithContext Context.background 5 =
        (Context.withTimeout Context.background 5, CancelFunc.cancelCtx)) :=
  ⟨⟨by decide, (withContext_spec Context.background (-3)).1 (by decide)⟩,
   ⟨by decide, (withContext_spec Context.background 5).2 (by decide)⟩⟩

/-- C7: Open dispatches on the path.  A path with the remote scheme yields a
connector request for the path itself, carrying the auth-token option
exactly when the token is non-empty; any other path yields a connector
request for the pragma-formatted path with no options. -/
theorem databaseOpen_dispatch (cfg : Config) (env : LibsqlEnv) :
    (hasPfx cfg.path "libsql://" = true →
      (databaseOpen cfg env).connectorReq =
        { url := cfg.path
          opts := if cfg.authToken ≠ "" then [LibsqlOption.withAuthToken cfg.authToken] else [] }) ∧
    (hasPfx cfg.path "libsql://" = false →
      (databaseOpen cfg env).connectorReq =
        { url := formatDSN cfg.path cfg.pragmas, opts := [] }) := by
  constructor <;> intro h <;>
    cases hc : env.connectorErr <;>
      cases hp : env.pingErr <;>
        simp [databaseOpen, openTail, h, hc, hp]

/-- Witness for C7 at a remote URL with a non-empty token and a default
environment. -/
theorem databaseOpen_dispatch_witness :
    hasPfx "libsql://host.example" "libsql://" = true ∧
    (databaseOpen
        { path := "libsql://host.example", authToken := "tok", maxOpenConns := 5,
          maxIdleConns := 5, connMaxLifetime := 0, connMaxIdleTime := 0, pragmas := [] }
        { connectorErr := none, pingErr := none }).connectorReq =
      { url := "libsql://host.example",
        opts := if ("tok" : String) ≠ "" then [LibsqlOption.withAuthToken "tok"] else [] } :=
  ⟨by decide, (databaseOpen_dispatch _ _).1 (by decide)⟩

/-- C8: when the filesystem calls succeed, createMigration writes exactly
two files, the up and down stubs named from the timestamp and the name
inside the fixed migrations directory, and performs no database access at
all (so neither the live database nor the stored version state changes). -/
theorem createMigration_files (name : String) (timestamp : Nat) (env : FsEnv)
    (h1 : env.mkdirErr = none) (h2 : env.writeUpErr = none) (h3 : env.writeDownErr = none) :
    writesOf (createMigration name timestamp env) =
      [("db/migrations/" ++ (toString timestamp ++ "_" ++ name ++ ".up.sql"),
          "-- Migration Up\n"),
       ("db/migrations/" ++ (toString timestamp ++ "_" ++ name ++ ".down.sql"),
          "-- Migration Down\n")] ∧
    dbAccessesOf (createMigration name timestamp env) = [] := by
  constructor <;>
    simp [writesOf, dbAccessesOf, createMigration, h1, h2, h3, joinMigrations, migrationsDir]

/-- Witness for C8 creating add_users at unix time 1700000000 with a clean
filesystem environment. -/
theorem createMigration_files_witness :
    ((⟨none, none, none⟩ : FsEnv).mkdirErr = none) ∧
    ((⟨none, none, none⟩ : FsEnv).writeUpErr = none) ∧
    ((⟨none, none, none⟩ : FsEnv).writeDownErr = none) ∧
    (writesOf (createMigration "add_users" 1700000000 ⟨none, none, none⟩) =
      [("db/migrations/" ++ (toString (1700000000 : Nat) ++ "_" ++ "add_users" ++ ".up.sql"),
          "-- Migration Up\n"),
       ("db/migrations/" ++ (toString (1700000000 : Nat) ++ "_" ++ "add_users" ++ ".down.sql"),
          "-- Migration Down\n")] ∧
     dbAccessesOf (createMigration "add_users" 1700000000 ⟨none, none, none⟩) = []) :=
  ⟨rfl, rfl, rfl,
    createMigration_files "add_users" 1700000000 ⟨none, none, none⟩ rfl rfl rfl⟩

/-- C9: when connecting and instance creation succeed, getMigrationVersion
treats the no-version condition as a non-error status, printing the
no-migrations message and exiting normally, and with a recorded version it
prints the pointer and dirty flag, again without a fatal error. -/
theorem getMigrationVersion_spec (env : MigrateEnv)
    (h1 : env.withInstanceErr = none) (h2 : env.newInstanceErr = none) :
    (env.version = VersionOutcome.nilVersion →
      getMigrationVersion env = (["No migrations applied yet"], none)) ∧
    (∀ v d, env.version = VersionOutcome.ok v d →
      getMigrationVersion env =
        (["Current migration version: " ++ toString v ++
            " (dirty: " ++ (if d then "true" else "false") ++ ")"], none)) := by
  constructor
  · intro h
    simp [getMigrationVersion, h1, h2, h]
  · intro v d h
    simp [getMigrationVersion, h1, h2, h]

/-- Witness for C9 at an environment that reports ErrNilVersion. -/
theorem getMigrationVersion_spec_witness :
    getMigrationVersion ⟨none, none, VersionOutcome.nilVersion⟩ =
      (["No migrations applied yet"], none) :=
  (getMigrationVersion_spec ⟨none, none, VersionOutcome.nilVersion⟩ rfl rfl).1 rfl

/-- C10: in the sqlite3 driver variant, the DSN built from the in-memory
sentinel with a non-empty pragma set differs from the bare sentinel and is
therefore given the file: scheme marker, while the bare sentinel with no
pragmas escapes the marker. -/
theorem sqlite3DSN_memory (l : List (String × String)) :
    (l ≠ [] → sqlite3DSN ":memory:" l = "file:" ++ formatDSN ":memory:" l) ∧
    sqlite3DSN ":memory:" [] = ":memory:" := by
  constructor
  · intro h
    have hne : formatDSN ":memory:" l ≠ ":memory:" := formatDSN_memory_ne l h
    have hpfx : hasPfx (formatDSN ":memory:" l) "file:" = false := by
      rw [formatDSN_ne_nil _ _ h]; rfl
    simp [sqlite3DSN, hne, hpfx]
  · rfl

/-- Witness for C10 at the single pragma a=1 and at the empty pragma set. -/
theorem sqlite3DSN_memory_witness :
    (([("a", "1")] : List (String × String)) ≠ [] ∧
      sqlite3DSN ":memory:" [("a", "1")] = "file:" ++ formatDSN ":memory:" [("a", "1")]) ∧
    sqlite3DSN ":memory:" [] = ":memory:" :=
  ⟨⟨by decide, (sqlite3DSN_memory [("a", "1")]).1 (by decide)⟩,
    (sqlite3DSN_memory []).2⟩
